import Mathlib

/-!
Verification development for the RoboTrader broker execution core.

Shallow embedding of the order-lifecycle controller
(src/core/order_manager.py), the broker status reconciliation
(src/api/kis_api_manager.py) and the authenticated gateway
(src/api/kis_auth.py).  Numeric broker fields that the Python code parses
from strings (with comma stripping and float coercion) are modelled as the
already-parsed integers, with 0 standing for a missing/blank field exactly
as in the source fallbacks.  Logging and notification side effects are not
modelled.
-/

namespace RoboTrader

/-- Modelled from the spec: the module src/core/models.py (order data
types) is not under src/; the status enum follows spec section 3:
PENDING, PARTIAL, FILLED, CANCELLED, TIMEOUT.  The PARTIAL member is named
partFilled here. -/
inductive OrderStatus
  | pending
  | partFilled
  | filled
  | cancelled
  | timeout
  deriving DecidableEq, Repr

/-- Modelled from the spec: order side, src/core/models.py OrderType. -/
inductive OrderType
  | buy
  | sell
  deriving DecidableEq, Repr

/-- Modelled from the spec: the Order dataclass of src/core/models.py
(identifier, symbol, side, limit price, requested quantity, filled
quantity, remaining quantity, status, creation timestamp, decision-bar
timestamp for buy orders, adjustment count).  Timestamps are seconds as
integers; prices are integers (KRW). -/
structure Order where
  order_id : String
  stock_code : String
  order_type : OrderType
  price : Int
  quantity : Int
  timestamp : Int
  status : OrderStatus
  filled_quantity : Int := 0
  remaining_quantity : Int
  order_3min_candle_time : Option Int := none
  adjustment_count : Nat := 0
  deriving DecidableEq, Repr

/-- One row of the broker open-orders query
(get_inquire_psbl_rvsecncl_lst) matching the polled order id, with the
two numeric fields the code reads: ord_qty and rmn_qty (already parsed). -/
structure PendingRow where
  ord_qty : Int
  rmn_qty : Int
  deriving DecidableEq, Repr

/-- One row of the same-day fill-history query
(get_inquire_daily_ccld_lst) matching the polled order id: the parsed
executed quantity (tot_ccld_qty, 0 when the field is missing or invalid)
and the parsed echoed order quantity (ord_qty, 0 when missing/invalid). -/
structure FillRecord where
  tot_ccld_qty : Int
  ord_qty : Int
  deriving DecidableEq, Repr

/-- Sum of the executed quantities over the matching fill-history rows,
as accumulated by the loops in KISAPIManager.get_order_status
(kis_api_manager.py lines 755-760 and 802-844). -/
def fillSum (fills : List FillRecord) : Int :=
  fills.foldl (fun acc r => acc + r.tot_ccld_qty) 0

/-- Echoed order quantity extracted from the fill-history rows: the code
keeps the last row whose ord_qty parses to a positive value
(kis_api_manager.py lines 840-841), starting from 0. -/
def lastOrdQty (fills : List FillRecord) : Int :=
  fills.foldl (fun acc r => if r.ord_qty > 0 then r.ord_qty else acc) 0

/-- Reconciled status record returned by KISAPIManager.get_order_status.
Field cncl_yn is modelled as a Bool (true stands for the string Y).  The
flags actual_unfilled and status_unknown model the synthetic keys added
by the two special branches. -/
structure StatusData where
  odno : String
  tot_ccld_qty : Int
  rmn_qty : Int
  ord_qty : Int
  cncl_yn : Bool
  actual_unfilled : Bool := false
  status_unknown : Bool := false
  deriving DecidableEq, Repr

/-- Embedding of KISAPIManager.get_order_status (kis_api_manager.py lines
671-951) specialised to the rows matching the polled order id: pending is
the matching open-orders row when the order appears there, fills are the
matching same-day fill-history rows (empty both when the query returned
no rows and when the query itself failed).  Returns none where the source
returns None (quantity parse failure is abstracted away; the guard on a
non-positive order quantity at line 778-780 is kept).  The unreachable
last-record-missing fallback (lines 895-923, dead because the branch
requires a non-empty row set) is not modelled. -/
def get_order_status (orderId : String) (pending : Option PendingRow)
    (fills : List FillRecord) : Option StatusData :=
  match pending with
  | some row =>
      let total_order_qty := row.ord_qty
      let remaining_qty := row.rmn_qty
      let filled_qty := fillSum fills
      if total_order_qty ≤ 0 then none
      else
        some { odno := orderId, tot_ccld_qty := filled_qty,
               rmn_qty := remaining_qty, ord_qty := total_order_qty,
               cncl_yn := false }
  | none =>
      if fills.isEmpty then
        some { odno := orderId, tot_ccld_qty := 0, rmn_qty := 0,
               ord_qty := 0, cncl_yn := true, status_unknown := true }
      else
        let total_filled_qty := fillSum fills
        let order_qty := lastOrdQty fills
        if total_filled_qty = 0 ∧ order_qty > 0 then
          some { odno := orderId, tot_ccld_qty := 0, rmn_qty := order_qty,
                 ord_qty := order_qty, cncl_yn := false,
                 actual_unfilled := true }
        else
          some { odno := orderId, tot_ccld_qty := total_filled_qty,
                 rmn_qty := max 0 (order_qty - total_filled_qty),
                 ord_qty := order_qty, cncl_yn := false }

/-- Outcome of one OrderManager._check_order_status pass over one order:
noData when the gateway returned None, keep when the order stays in
pending_orders (carrying the in-place field updates), complete when the
order was moved to completed_orders with the final status. -/
inductive CheckResult
  | noData
  | keep (order : Order)
  | complete (order : Order)
  deriving DecidableEq, Repr

/-- Embedding of OrderManager._check_order_status (order_manager.py lines
441-575) for one order: the classification applied to the reconciled
status record, with now the current wall-clock time in seconds. -/
def check_order_status (order : Order) (statusData : Option StatusData)
    (now : Int) : CheckResult :=
  match statusData with
  | none => CheckResult.noData
  | some sd =>
      let filled_qty := sd.tot_ccld_qty
      let remaining_qty := sd.rmn_qty
      let order1 := { order with filled_quantity := filled_qty,
                                 remaining_quantity := remaining_qty }
      if sd.cncl_yn then
        CheckResult.complete { order1 with status := OrderStatus.cancelled }
      else if sd.status_unknown then
        if now - order.timestamp > 300 then
          CheckResult.complete { order1 with status := OrderStatus.timeout }
        else
          CheckResult.keep order1
      else if sd.actual_unfilled then
        CheckResult.keep order1
      else if remaining_qty = 0 ∧ filled_qty = order.quantity ∧ filled_qty > 0 then
        if sd.ord_qty > 0 ∧ sd.ord_qty ≠ order.quantity then
          CheckResult.keep order1
        else
          CheckResult.complete { order1 with status := OrderStatus.filled }
      else if filled_qty > 0 ∧ remaining_qty > 0 then
        if filled_qty + remaining_qty = order.quantity then
          CheckResult.keep { order1 with status := OrderStatus.partFilled }
        else
          CheckResult.keep order1
      else
        CheckResult.keep order1

/-- One reconciliation pass over one pending order: the gateway query
composed with the classification, exactly as _check_order_status invokes
get_order_status on the order id. -/
def reconcile (order : Order) (pending : Option PendingRow)
    (fills : List FillRecord) (now : Int) : CheckResult :=
  check_order_status order (get_order_status order.order_id pending fills) now

/-- Echoed order quantity of the broker response: the ord_qty of the
open-orders row when present, else the one recovered from the
fill-history rows. -/
def echoedQty (pending : Option PendingRow) (fills : List FillRecord) : Int :=
  match pending with
  | some row => row.ord_qty
  | none => lastOrdQty fills

/-- True exactly when the pass declares the order FILLED (complete with
status filled); keep outcomes never classify. -/
def classifiesFilled : CheckResult → Bool
  | CheckResult.complete o => decide (o.status = OrderStatus.filled)
  | _ => false

/-- Lookup in an association list keyed by order id (a Python dict whose
keys are unique is modelled as an association list). -/
def alookup {α : Type} (l : List (String × α)) (id : String) : Option α :=
  (l.find? fun p => decide (p.1 = id)).map Prod.snd

/-- Removal of a key from an association list (dict pop / del). -/
def aerase {α : Type} (l : List (String × α)) (id : String) :
    List (String × α) :=
  l.filter fun p => decide (p.1 ≠ id)

/-- In-place mutation of the value stored under a key (the Python code
mutates the Order object held in the dict). -/
def aupdate {α : Type} (l : List (String × α)) (id : String) (f : α → α) :
    List (String × α) :=
  l.map fun p => if p.1 = id then (p.1, f p.2) else p

/-- The OrderManager state: pending_orders, order_timeouts (wall-clock
deadline per order id) and the terminal log completed_orders. -/
structure OrderStore where
  pending : List (String × Order)
  timeouts : List (String × Int)
  completed : List Order
  deriving DecidableEq, Repr

/-- Embedding of OrderManager._move_to_completed (order_manager.py lines
786-804): pop from pending_orders, append to completed_orders, drop the
timeout entry. -/
def move_to_completed (s : OrderStore) (id : String) : OrderStore :=
  match alookup s.pending id with
  | none => s
  | some o =>
      { pending := aerase s.pending id, timeouts := aerase s.timeouts id,
        completed := s.completed ++ [o] }

/-- Mutation of the status field of the order stored under id, as done
before each _move_to_completed call in the source. -/
def set_status (s : OrderStore) (id : String) (st : OrderStatus) : OrderStore :=
  { s with pending := aupdate s.pending id fun o => { o with status := st } }

/-- Outcome of the broker cancel call issued by cancel_order: the API
reported success, reported failure, or raised an exception (the source
catches the exception inside cancel_order and returns False). -/
inductive CancelOutcome
  | success
  | failure
  | error
  deriving DecidableEq, Repr

/-- Embedding of OrderManager.cancel_order (order_manager.py lines
257-295): unknown id returns False; on broker success the order is set
CANCELLED and moved to the terminal log; on broker failure or exception
the state is unchanged and False is returned. -/
def om_cancel_order (s : OrderStore) (id : String) (oc : CancelOutcome) :
    OrderStore × Bool :=
  match alookup s.pending id with
  | none => (s, false)
  | some _ =>
      match oc with
      | CancelOutcome.success =>
          (move_to_completed (set_status s id OrderStatus.cancelled) id, true)
      | CancelOutcome.failure => (s, false)
      | CancelOutcome.error => (s, false)

/-- Embedding of OrderManager._handle_timeout (order_manager.py lines
577-631): attempt cancellation; when the cancel call does not succeed the
order is force-transitioned to TIMEOUT and moved to the terminal log. -/
def handle_timeout (s : OrderStore) (id : String) (oc : CancelOutcome) :
    OrderStore :=
  match alookup s.pending id with
  | none => s
  | some _ =>
      let r := om_cancel_order s id oc
      if r.2 then r.1
      else
        match alookup r.1.pending id with
        | some _ => move_to_completed (set_status r.1 id OrderStatus.timeout) id
        | none => r.1

/-- Embedding of OrderManager._handle_4candle_timeout (order_manager.py
lines 633-693); state-wise it mirrors _handle_timeout: cancel, and on
failure force TIMEOUT. -/
def handle_4candle_timeout (s : OrderStore) (id : String) (oc : CancelOutcome) :
    OrderStore :=
  match alookup s.pending id with
  | none => s
  | some _ =>
      let r := om_cancel_order s id oc
      if r.2 then r.1
      else
        match alookup r.1.pending id with
        | some _ => move_to_completed (set_status r.1 id OrderStatus.timeout) id
        | none => r.1

/-- Embedding of OrderManager._has_4_candles_passed (order_manager.py
lines 69-83): four 3-minute bars, i.e. 12 minutes of real elapsed time. -/
def has_4_candles_passed (candleTime : Option Int) (now : Int) : Bool :=
  match candleTime with
  | none => false
  | some c => decide (now ≥ c + 720)

/-- Application of a _check_order_status outcome to the store: keep
mutates the stored order in place, complete mutates it and moves it to
the terminal log. -/
def apply_check (s : OrderStore) (id : String) : CheckResult → OrderStore
  | CheckResult.noData => s
  | CheckResult.keep o => { s with pending := aupdate s.pending id fun _ => o }
  | CheckResult.complete o =>
      move_to_completed { s with pending := aupdate s.pending id fun _ => o } id

/-- Embedding of the per-order body of OrderManager._monitor_pending_orders
(order_manager.py lines 326-361): read the deadline, run the status
check, and if the order is still pending apply the wall-clock timeout
check and then the 4-bar timeout check for buy orders.  The disabled
price-adjustment step (line 357-358) is omitted as in the source. -/
def monitor_pending_order (s : OrderStore) (id : String) (now : Int)
    (pendingRow : Option PendingRow) (fills : List FillRecord)
    (oc : CancelOutcome) : OrderStore :=
  match alookup s.pending id with
  | none => s
  | some order =>
      let tt := alookup s.timeouts id
      let s1 := apply_check s id
        (check_order_status order (get_order_status id pendingRow fills) now)
      match alookup s1.pending id with
      | none => s1
      | some _ =>
          match tt with
          | some t =>
              if now > t then handle_timeout s1 id oc
              else if order.order_type = OrderType.buy ∧
                  order.order_3min_candle_time.isSome ∧
                  has_4_candles_passed order.order_3min_candle_time now then
                handle_4candle_timeout s1 id oc
              else s1
          | none =>
              if order.order_type = OrderType.buy ∧
                  order.order_3min_candle_time.isSome ∧
                  has_4_candles_passed order.order_3min_candle_time now then
                handle_4candle_timeout s1 id oc
              else s1

/-- Classified broker response to a single network attempt issued by
_url_fetch (kis_auth.py lines 329-491): HTTP 200 with business success;
HTTP 200 with the rate-limit code EGW00201; HTTP 200 with the
token-expired code EGW00123 (carrying whether the forced
re-authentication succeeds); HTTP 200 with another business error; HTTP
500 carrying a token-expired body (with the re-authentication outcome);
HTTP 500 carrying a rate-limit body; another HTTP error; a transport
exception. -/
inductive ApiResponse
  | ok
  | rateLimit
  | tokenExpired (reauthOk : Bool)
  | bizError
  | http500TokenExpired (reauthOk : Bool)
  | http500RateLimit
  | httpError
  | transportExn
  deriving DecidableEq, Repr

/-- What _url_fetch hands back to the caller: the successful response, a
surfaced rate-limit failure (the EGW00201 response object after the
budget is exhausted), the token-expired failure object when the
re-authentication failed or the re-auth-and-replay block raised (the
inner handler at kis_auth.py lines 423-425 returns ar), an immediate
business failure, the failed replay response after a re-authentication,
None for HTTP-level failures, or None from the unreachable loop
fall-through. -/
inductive FetchOutcome
  | success
  | rateLimitFail
  | authFail
  | bizFail
  | replayFail
  | httpFail
  | exhausted
  deriving DecidableEq, Repr

/-- Observable trace of one _url_fetch call: how many network attempts
were issued, the backoff sleeps performed between attempts, and the
outcome handed to the caller. -/
structure FetchTrace where
  attempts : Nat
  sleeps : List ℚ
  result : FetchOutcome
  deriving DecidableEq, Repr

/-- Loop body of _url_fetch.  The script gives the broker response to the
n-th network attempt issued so far (so the post-re-authentication replay
consumes the next scripted response).  Arguments: remaining loop
iterations (maxRetries + 1 - attempt), the loop index attempt, the
cumulative rate-limit error counter rl (kis_auth.py escalates the base
delay once it exceeds 10), attempts issued so far and sleeps performed so
far. -/
def fetchGo (maxRetries : Nat) (base : ℚ) (script : Nat → ApiResponse) :
    Nat → Nat → Nat → Nat → List ℚ → FetchTrace
  | 0, _, _, attempts, sleeps =>
      { attempts := attempts, sleeps := sleeps, result := FetchOutcome.exhausted }
  | fuel + 1, attempt, rl, attempts, sleeps =>
      match script attempts with
      | ApiResponse.ok =>
          { attempts := attempts + 1, sleeps := sleeps,
            result := FetchOutcome.success }
      | ApiResponse.rateLimit =>
          if attempt < maxRetries then
            let b := if rl + 1 > 10 then base * 3 / 2 else base
            fetchGo maxRetries base script fuel (attempt + 1) (rl + 1)
              (attempts + 1) (sleeps ++ [b * 2 ^ attempt])
          else
            { attempts := attempts + 1, sleeps := sleeps,
              result := FetchOutcome.rateLimitFail }
      | ApiResponse.tokenExpired reauthOk =>
          if reauthOk then
            match script (attempts + 1) with
            | ApiResponse.ok =>
                { attempts := attempts + 2, sleeps := sleeps,
                  result := FetchOutcome.success }
            | ApiResponse.rateLimit =>
                { attempts := attempts + 2, sleeps := sleeps,
                  result := FetchOutcome.replayFail }
            | ApiResponse.tokenExpired _ =>
                { attempts := attempts + 2, sleeps := sleeps,
                  result := FetchOutcome.replayFail }
            | ApiResponse.bizError =>
                { attempts := attempts + 2, sleeps := sleeps,
                  result := FetchOutcome.replayFail }
            | ApiResponse.transportExn =>
                { attempts := attempts + 2, sleeps := sleeps,
                  result := FetchOutcome.authFail }
            | _ =>
                { attempts := attempts + 2, sleeps := sleeps,
                  result := FetchOutcome.httpFail }
          else
            { attempts := attempts + 1, sleeps := sleeps,
              result := FetchOutcome.authFail }
      | ApiResponse.bizError =>
          { attempts := attempts + 1, sleeps := sleeps,
            result := FetchOutcome.bizFail }
      | ApiResponse.http500TokenExpired reauthOk =>
          if reauthOk then
            fetchGo maxRetries base script fuel (attempt + 1) rl
              (attempts + 1) sleeps
          else
            { attempts := attempts + 1, sleeps := sleeps,
              result := FetchOutcome.httpFail }
      | ApiResponse.http500RateLimit =>
          if attempt < maxRetries then
            let b := if rl + 1 > 10 then base * 3 / 2 else base
            fetchGo maxRetries base script fuel (attempt + 1) (rl + 1)
              (attempts + 1) (sleeps ++ [b * 2 ^ attempt])
          else
            { attempts := attempts + 1, sleeps := sleeps,
              result := FetchOutcome.httpFail }
      | ApiResponse.httpError =>
          { attempts := attempts + 1, sleeps := sleeps,
            result := FetchOutcome.httpFail }
      | ApiResponse.transportExn =>
          if attempt < maxRetries then
            fetchGo maxRetries base script fuel (attempt + 1) rl
              (attempts + 1) (sleeps ++ [base * 2 ^ attempt])
          else
            { attempts := attempts + 1, sleeps := sleeps,
              result := FetchOutcome.httpFail }

/-- Embedding of _url_fetch (kis_auth.py lines 329-491): the retry loop
runs for attempt in range(max_retries + 1), starting from a prior
cumulative rate-limit error count rl0. -/
def url_fetch (maxRetries : Nat) (base : ℚ) (rl0 : Nat)
    (script : Nat → ApiResponse) : FetchTrace :=
  fetchGo maxRetries base script (maxRetries + 1) 0 rl0 0 []

/-- Wait computed by _wait_for_api_limit (kis_auth.py lines 494-512) from
the recorded last-call timestamp and the clock read t1 on entry. -/
def waitTime (minInterval : ℚ) (last : Option ℚ) (t1 : ℚ) : ℚ :=
  match last with
  | none => 0
  | some p => if t1 - p < minInterval then minInterval - (t1 - p) else 0

/-- Rate limiter state: recorded last-call timestamp and the cumulative
wait-time and call counters of _api_stats. -/
structure LimiterState where
  lastCall : Option ℚ
  totalWaitTime : ℚ
  totalCalls : Nat
  deriving DecidableEq, Repr

/-- Embedding of one serialized _wait_for_api_limit critical section: t1
is the clock read on entry, t2 the clock read after the sleep; the source
records t2 as the new last-call time inside the same lock-protected
block. -/
def wait_for_api_limit (minInterval : ℚ) (s : LimiterState) (t1 t2 : ℚ) :
    LimiterState :=
  { lastCall := some t2,
    totalWaitTime := s.totalWaitTime + waitTime minInterval s.lastCall t1,
    totalCalls := s.totalCalls + 1 }

/-- Validity of a serialized sequence of acquire calls, each given by its
entry clock read t1 and its post-sleep clock read t2: the clock is
monotone across the serialized critical sections (the previous recorded
grant is not after the next entry read) and the sleep lasts at least the
requested wait. -/
def validCalls (minInterval : ℚ) : Option ℚ → List (ℚ × ℚ) → Prop
  | _, [] => True
  | last, c :: rest =>
      (∀ p, last = some p → p ≤ c.1) ∧
      c.1 + waitTime minInterval last c.1 ≤ c.2 ∧
      validCalls minInterval (some c.2) rest

/-- Recorded grant timestamps produced by running the acquire calls in
order through the limiter state. -/
def grantTimes (minInterval : ℚ) (s : LimiterState) :
    List (ℚ × ℚ) → List ℚ
  | [] => []
  | c :: rest =>
      c.2 :: grantTimes minInterval (wait_for_api_limit minInterval s c.1 c.2) rest

/-- Discriminated order result of kis_api_manager.py (OrderResult):
success flag and the broker order id, empty on failure. -/
structure OrderResult where
  success : Bool
  order_id : String := ""
  deriving DecidableEq, Repr

/-- Modelled from the spec: the module api/kis_order_api.py
(get_order_cash, the cash order-placement call) is not under src/.  Per
spec section 4.4 the submission path validates quantity > 0 and
price >= 0 unless the order is a market order (ord_dvsn 01) before
invoking the mutating broker call; on a validation failure no network
call is made and None is returned.  The first component records whether
the broker order-placement network call was issued; brokerResp scripts
the broker answer (the ODNO field of the response row, none when the call
yields no response). -/
def get_order_cash (qty price : Int) (ord_dvsn : String)
    (brokerResp : Option String) : Bool × Option String :=
  if qty ≤ 0 ∨ (price < 0 ∧ ord_dvsn ≠ "01") then (false, none)
  else (true, brokerResp)

/-- Retry wrapper KISAPIManager._call_api_with_retry (kis_api_manager.py
lines 142-180) for a deterministic callee: up to maxRetries calls,
returning the first non-None result; the Bool accumulates whether any
call reached the network. -/
def callApiWithRetryGo {α : Type} (f : Bool × Option α) :
    Nat → Bool → Bool × Option α
  | 0, called => (called, none)
  | n + 1, called =>
      match f with
      | (c, some a) => (called || c, some a)
      | (c, none) => callApiWithRetryGo f n (called || c)

/-- Entry point of the retry wrapper: for attempt in range(max_retries). -/
def callApiWithRetry {α : Type} (maxRetries : Nat) (f : Bool × Option α) :
    Bool × Option α :=
  callApiWithRetryGo f maxRetries false

/-- Embedding of KISAPIManager.place_buy_order (kis_api_manager.py lines
408-444): place the cash order through the retry wrapper; no response or
an empty order number is a failure.  The Bool records whether the broker
order-placement call was issued. -/
def api_place_buy_order (maxRetries : Nat) (qty price : Int)
    (ord_dvsn : String) (brokerResp : Option String) : Bool × OrderResult :=
  let r := callApiWithRetry maxRetries (get_order_cash qty price ord_dvsn brokerResp)
  match r.2 with
  | none => (r.1, { success := false })
  | some odno =>
      if odno ≠ "" then (r.1, { success := true, order_id := odno })
      else (r.1, { success := false })

/-- Embedding of KISAPIManager.place_sell_order (kis_api_manager.py lines
446-482), identical in structure to the buy path. -/
def api_place_sell_order (maxRetries : Nat) (qty price : Int)
    (ord_dvsn : String) (brokerResp : Option String) : Bool × OrderResult :=
  let r := callApiWithRetry maxRetries (get_order_cash qty price ord_dvsn brokerResp)
  match r.2 with
  | none => (r.1, { success := false })
  | some odno =>
      if odno ≠ "" then (r.1, { success := true, order_id := odno })
      else (r.1, { success := false })

/-- Embedding of OrderManager.place_buy_order (order_manager.py lines
85-171).  paper is the paper_trading configuration flag; candleTime the
3-minute decision-bar timestamp computed on submission; apiRes the result
the API manager produces when invoked (its Bool component recording
whether the broker placement call was issued).  Returns the new store,
the returned order id, and whether the API manager was invoked at all. -/
def om_place_buy_order (paper : Bool) (s : OrderStore) (stock : String)
    (qty price now candleTime timeoutSecs : Int)
    (apiRes : Bool × OrderResult) : OrderStore × Option String × Bool :=
  if paper then
    let fakeId := "VT-BUY-" ++ stock ++ "-" ++ toString now
    let order : Order :=
      { order_id := fakeId, stock_code := stock, order_type := OrderType.buy,
        price := price, quantity := qty, timestamp := now,
        status := OrderStatus.filled, remaining_quantity := 0,
        order_3min_candle_time := some candleTime }
    ({ s with completed := s.completed ++ [order] }, some fakeId, false)
  else
    if apiRes.2.success then
      let order : Order :=
        { order_id := apiRes.2.order_id, stock_code := stock,
          order_type := OrderType.buy, price := price, quantity := qty,
          timestamp := now, status := OrderStatus.pending,
          remaining_quantity := qty,
          order_3min_candle_time := some candleTime }
      ({ s with
          pending := s.pending ++ [(apiRes.2.order_id, order)],
          timeouts := s.timeouts ++ [(apiRes.2.order_id, now + timeoutSecs)] },
        some apiRes.2.order_id, true)
    else (s, none, true)

/-- Embedding of OrderManager.place_sell_order (order_manager.py lines
173-255); the paper branch records no decision-bar timestamp. -/
def om_place_sell_order (paper : Bool) (s : OrderStore) (stock : String)
    (qty price now timeoutSecs : Int)
    (apiRes : Bool × OrderResult) : OrderStore × Option String × Bool :=
  if paper then
    let fakeId := "VT-SELL-" ++ stock ++ "-" ++ toString now
    let order : Order :=
      { order_id := fakeId, stock_code := stock, order_type := OrderType.sell,
        price := price, quantity := qty, timestamp := now,
        status := OrderStatus.filled, remaining_quantity := 0 }
    ({ s with completed := s.completed ++ [order] }, some fakeId, false)
  else
    if apiRes.2.success then
      let order : Order :=
        { order_id := apiRes.2.order_id, stock_code := stock,
          order_type := OrderType.sell, price := price, quantity := qty,
          timestamp := now, status := OrderStatus.pending,
          remaining_quantity := qty }
      ({ s with
          pending := s.pending ++ [(apiRes.2.order_id, order)],
          timeouts := s.timeouts ++ [(apiRes.2.order_id, now + timeoutSecs)] },
        some apiRes.2.order_id, true)
    else (s, none, true)

/-! Helper lemmas about the association-list operations. -/

lemma alookup_cons {α : Type} (p : String × α) (t : List (String × α))
    (id : String) :
    alookup (p :: t) id = if p.1 = id then some p.2 else alookup t id := by
  by_cases h : p.1 = id <;> simp [alookup, List.find?_cons, h]

lemma alookup_aerase {α : Type} (l : List (String × α)) (id : String) :
    alookup (aerase l id) id = none := by
  induction l with
  | nil => rfl
  | cons p t ih =>
      by_cases h : p.1 = id
      · simpa [aerase, List.filter_cons, h] using ih
      · simpa [aerase, List.filter_cons, h, alookup_cons] using ih

lemma alookup_aupdate {α : Type} (l : List (String × α)) (id : String)
    (f : α → α) :
    alookup (aupdate l id f) id = (alookup l id).map f := by
  induction l with
  | nil => rfl
  | cons p t ih =>
      by_cases h : p.1 = id
      · simp [aupdate, alookup_cons, h]
      · simp only [aupdate, List.map_cons]
        rw [if_neg h, alookup_cons, if_neg h, alookup_cons, if_neg h]
        simpa [aupdate] using ih

/-- C3: for every order present in the open-orders query (with a positive
parsed order quantity, as required by the guard), the reconciled record
reports as filled quantity exactly the sum of the matching same-day
fill-history rows, together with the open-orders remaining quantity and
order quantity unchanged; with no matching rows the reported filled
quantity is 0.  The value ord_qty - rmn_qty never enters the record. -/
theorem filled_qty_from_fill_history_only
    (id : String) (row : PendingRow) (fills : List FillRecord)
    (h : 0 < row.ord_qty) :
    get_order_status id (some row) fills =
      some { odno := id, tot_ccld_qty := fillSum fills,
             rmn_qty := row.rmn_qty, ord_qty := row.ord_qty,
             cncl_yn := false } ∧
    (fills = [] →
      get_order_status id (some row) fills =
        some { odno := id, tot_ccld_qty := 0, rmn_qty := row.rmn_qty,
               ord_qty := row.ord_qty, cncl_yn := false }) := by
  have hq : ¬ row.ord_qty ≤ 0 := by omega
  refine ⟨by simp [get_order_status, hq], ?_⟩
  rintro rfl
  simp [get_order_status, hq, fillSum]

theorem filled_qty_from_fill_history_only_witness :
    get_order_status "A1" (some ⟨10, 3⟩) [⟨2, 10⟩, ⟨3, 10⟩] =
      some { odno := "A1", tot_ccld_qty := 5, rmn_qty := 3, ord_qty := 10,
             cncl_yn := false } :=
  (filled_qty_from_fill_history_only "A1" ⟨10, 3⟩ [⟨2, 10⟩, ⟨3, 10⟩]
    (by norm_num)).1

/-- C9: a reconciled status record carries the cancelled flag exactly
when the order id was found in neither the open-orders query nor the
same-day fill history; any record produced while the order is visible in
either source reports not-cancelled. -/
theorem cncl_flag_iff_absent_from_both (id : String)
    (pending : Option PendingRow) (fills : List FillRecord) (sd : StatusData)
    (h : get_order_status id pending fills = some sd) :
    sd.cncl_yn = true ↔ pending = none ∧ fills = [] := by
  cases pending with
  | some row =>
      by_cases hq : row.ord_qty ≤ 0
      · simp [get_order_status, hq] at h
      · simp [get_order_status, hq] at h
        simp [← h]
  | none =>
      by_cases he : fills.isEmpty
      · simp [get_order_status, he] at h
        simp [← h, List.isEmpty_iff.mp he]
      · have hne : fills ≠ [] := by
          simpa [List.isEmpty_iff] using he
        by_cases hz : fillSum fills = 0 ∧ lastOrdQty fills > 0
        · simp [get_order_status, he, hz] at h
          simp [← h, hne]
        · simp [get_order_status, he, hz] at h
          simp [← h, hne]

theorem cncl_flag_iff_absent_from_both_witness :
    (true = true ↔ (none : Option PendingRow) = none ∧ ([] : List FillRecord) = []) :=
  cncl_flag_iff_absent_from_both "B9" none []
    { odno := "B9", tot_ccld_qty := 0, rmn_qty := 0, ord_qty := 0,
      cncl_yn := true, status_unknown := true } (by rfl)

/-- C4: fill-history rows whose executed quantities sum to 0 with a
positive echoed order quantity, for an order absent from open-orders,
produce the synthetic still-unfilled record (filled 0, remaining equal to
the full order quantity, not cancelled, actual_unfilled set), and the
monitoring pass keeps the order in the pending store with its previous
status: the outcome is a keep, never a FILLED classification nor a move
to the terminal log. -/
theorem zero_qty_fill_records_keep_pending
    (order : Order) (fills : List FillRecord) (now : Int)
    (hne : fills ≠ []) (hsum : fillSum fills = 0) (hq : 0 < lastOrdQty fills) :
    get_order_status order.order_id none fills =
      some { odno := order.order_id, tot_ccld_qty := 0,
             rmn_qty := lastOrdQty fills, ord_qty := lastOrdQty fills,
             cncl_yn := false, actual_unfilled := true } ∧
    reconcile order none fills now =
      CheckResult.keep { order with filled_quantity := 0,
                                    remaining_quantity := lastOrdQty fills } := by
  have he : ¬ fills.isEmpty := by simpa [List.isEmpty_iff] using hne
  have h1 : get_order_status order.order_id none fills =
      some { odno := order.order_id, tot_ccld_qty := 0,
             rmn_qty := lastOrdQty fills, ord_qty := lastOrdQty fills,
             cncl_yn := false, actual_unfilled := true } := by
    simp [get_order_status, he, hsum, hq]
  exact ⟨h1, by simp [reconcile, h1, check_order_status]⟩

theorem zero_qty_fill_records_keep_pending_witness :
    reconcile
      { order_id := "B4", stock_code := "000660", order_type := OrderType.buy,
        price := 500, quantity := 10, timestamp := 0,
        status := OrderStatus.pending, remaining_quantity := 10 }
      none [⟨0, 10⟩] 100 =
    CheckResult.keep
      { order_id := "B4", stock_code := "000660", order_type := OrderType.buy,
        price := 500, quantity := 10, timestamp := 0,
        status := OrderStatus.pending, filled_quantity := 0,
        remaining_quantity := 10 } :=
  (zero_qty_fill_records_keep_pending
    { order_id := "B4", stock_code := "000660", order_type := OrderType.buy,
      price := 500, quantity := 10, timestamp := 0,
      status := OrderStatus.pending, remaining_quantity := 10 }
    [⟨0, 10⟩] 100 (by simp) (by norm_num [fillSum]) (by norm_num [lastOrdQty])).2

/-- Core of the no-false-FILLED argument at the level of one reconciled
record: a mismatch between the reported filled quantity and the local
requested quantity, a mismatch with a positive reported order quantity,
or the cancelled flag, each rule out a FILLED classification. -/
lemma check_no_filled (order : Order) (sd : StatusData) (now : Int)
    (h : sd.tot_ccld_qty ≠ order.quantity ∨
         (0 < sd.ord_qty ∧ sd.tot_ccld_qty ≠ sd.ord_qty) ∨
         sd.cncl_yn = true) :
    classifiesFilled (check_order_status order (some sd) now) = false := by
  simp only [check_order_status, classifiesFilled]
  split_ifs with h1 h2 h3 h4 h5 h6 h7 <;> try rfl
  exfalso
  rcases h with hh | ⟨ho, hne⟩ | hcc
  · exact hh h5.2.1
  · exact h6 ⟨ho, by omega⟩
  · exact h1 hcc

/-- C1 (amended): a reconciliation pass never classifies an order FILLED
when the summed fill-history executed quantity differs from the locally
recorded requested quantity, or differs from a positive broker-echoed
order quantity, or the reconciled record flags the order cancelled (when
the echoed quantity is 0, i.e. absent from the response, the echo
comparison is skipped by the source); and in the explicit suppression
case (quantities consistent with a fill but the positive echoed quantity
disagreeing with the local quantity) the pass keeps the order with its
previous status for the next poll cycle. -/
theorem no_false_filled :
    (∀ (order : Order) (pending : Option PendingRow) (fills : List FillRecord)
        (now : Int),
      (fillSum fills ≠ order.quantity ∨
        (0 < echoedQty pending fills ∧ fillSum fills ≠ echoedQty pending fills) ∨
        (get_order_status order.order_id pending fills).any
          (fun sd => sd.cncl_yn) = true) →
      classifiesFilled (reconcile order pending fills now) = false) ∧
    (∀ (order : Order) (sd : StatusData) (now : Int),
      sd.cncl_yn = false → sd.status_unknown = false →
      sd.actual_unfilled = false → sd.rmn_qty = 0 →
      sd.tot_ccld_qty = order.quantity → 0 < sd.tot_ccld_qty →
      0 < sd.ord_qty → sd.ord_qty ≠ order.quantity →
      check_order_status order (some sd) now =
        CheckResult.keep { order with filled_quantity := sd.tot_ccld_qty,
                                      remaining_quantity := sd.rmn_qty }) := by
  constructor
  · intro order pending fills now hyp
    cases hg : get_order_status order.order_id pending fills with
    | none => simp [reconcile, hg, check_order_status, classifiesFilled]
    | some sd =>
        rw [hg, Option.any_some] at hyp
        rw [reconcile, hg]
        apply check_no_filled
        cases pending with
        | some row =>
            by_cases hq : row.ord_qty ≤ 0
            · simp [get_order_status, hq] at hg
            · simp [get_order_status, hq] at hg
              rcases hyp with h | ⟨he, hne⟩ | hcc
              · exact Or.inl (by simp [← hg, h])
              · exact Or.inr (Or.inl (by simp [echoedQty] at he hne; simp [← hg, he, hne]))
              · exact Or.inr (Or.inr hcc)
        | none =>
            by_cases he : fills.isEmpty
            · simp [get_order_status, he] at hg
              exact Or.inr (Or.inr (by simp [← hg]))
            · by_cases hz : fillSum fills = 0 ∧ lastOrdQty fills > 0
              · simp [get_order_status, he, hz] at hg
                rcases hyp with h | ⟨hee, hne⟩ | hcc
                · exact Or.inl (by simp [← hg]; omega)
                · exact Or.inr (Or.inl (by simp [echoedQty] at hee hne; simp [← hg]; omega))
                · exact Or.inr (Or.inr hcc)
              · simp [get_order_status, he, hz] at hg
                rcases hyp with h | ⟨hee, hne⟩ | hcc
                · exact Or.inl (by simp [← hg, h])
                · exact Or.inr (Or.inl (by simp [echoedQty] at hee hne; simp [← hg, hee, hne]))
                · exact Or.inr (Or.inr hcc)
  · intro order sd now hc hu ha hr htot hpos hord hne
    have hg : sd.rmn_qty = 0 ∧ sd.tot_ccld_qty = order.quantity ∧
        sd.tot_ccld_qty > 0 := ⟨hr, htot, hpos⟩
    simp [check_order_status, hc, hu, ha, hg, hord, hne]

theorem no_false_filled_witness :
    classifiesFilled
      (reconcile
        { order_id := "W1", stock_code := "005930", order_type := OrderType.buy,
          price := 100, quantity := 10, timestamp := 0,
          status := OrderStatus.pending, remaining_quantity := 10 }
        (some ⟨10, 3⟩) [⟨7, 10⟩] 0) = false ∧
    check_order_status
      { order_id := "W1b", stock_code := "005930", order_type := OrderType.buy,
        price := 100, quantity := 10, timestamp := 0,
        status := OrderStatus.partFilled, remaining_quantity := 10 }
      (some { odno := "W1b", tot_ccld_qty := 10, rmn_qty := 0, ord_qty := 12,
              cncl_yn := false }) 0 =
      CheckResult.keep
        { order_id := "W1b", stock_code := "005930", order_type := OrderType.buy,
          price := 100, quantity := 10, timestamp := 0,
          status := OrderStatus.partFilled, filled_quantity := 10,
          remaining_quantity := 0 } :=
  ⟨no_false_filled.1
      { order_id := "W1", stock_code := "005930", order_type := OrderType.buy,
        price := 100, quantity := 10, timestamp := 0,
        status := OrderStatus.pending, remaining_quantity := 10 }
      (some ⟨10, 3⟩) [⟨7, 10⟩] 0 (Or.inl (by decide)),
   no_false_filled.2
      { order_id := "W1b", stock_code := "005930", order_type := OrderType.buy,
        price := 100, quantity := 10, timestamp := 0,
        status := OrderStatus.partFilled, remaining_quantity := 10 }
      { odno := "W1b", tot_ccld_qty := 10, rmn_qty := 0, ord_qty := 12,
        cncl_yn := false } 0 rfl rfl rfl rfl (by decide) (by decide) (by decide)
      (by decide)⟩

/-- Concrete order used by the counterexample to C1 as stated. -/
def c1Order : Order :=
  { order_id := "C1X", stock_code := "005930", order_type := OrderType.buy,
    price := 1000, quantity := 10, timestamp := 0,
    status := OrderStatus.pending, remaining_quantity := 10,
    order_3min_candle_time := some 180 }

/-- Counterexample to C1 as stated: a fill-history row whose executed
quantity is 10 but whose order-quantity field is missing (parsed 0), for
an order absent from open-orders with local requested quantity 10.  The
summed fill-history quantity (10) differs from the broker-echoed order
quantity (0), yet the pass classifies the order FILLED, because the
source skips the echo comparison when the parsed echo is not positive. -/
theorem no_false_filled_counterexample :
    fillSum [⟨10, 0⟩] ≠ echoedQty none [⟨10, 0⟩] ∧
    classifiesFilled (reconcile c1Order none [⟨10, 0⟩] 0) = true := by
  constructor
  · decide
  · rfl

/-- Concrete order used by the C2 divergence evaluation. -/
def c2Order : Order :=
  { order_id := "C2X", stock_code := "005930", order_type := OrderType.buy,
    price := 1000, quantity := 10, timestamp := 0,
    status := OrderStatus.pending, remaining_quantity := 10,
    order_3min_candle_time := some 180 }

/-- C2 divergence: an order absent from both the open-orders query and
the fill-history query is classified CANCELLED and moved to the terminal
log immediately — both at 6 minutes after creation (where the claim says
TIMEOUT) and already at 1 minute (where the claim says UNKNOWN, kept
active).  The gateway synthesises the absent-from-both record with the
cancelled flag set together with the status-unknown flag, and the
classification tests the cancelled flag first, so the 5-minute
UNKNOWN-to-TIMEOUT branch of the source is unreachable. -/
theorem absent_from_both_classified_cancelled :
    reconcile c2Order none [] 360 =
      CheckResult.complete { c2Order with filled_quantity := 0,
                                          remaining_quantity := 0,
                                          status := OrderStatus.cancelled } ∧
    reconcile c2Order none [] 60 =
      CheckResult.complete { c2Order with filled_quantity := 0,
                                          remaining_quantity := 0,
                                          status := OrderStatus.cancelled } :=
  ⟨rfl, rfl⟩

/-- C10: with paper_trading set, the buy and sell submission operations
make no broker call (the API-manager invocation flag is false regardless
of what the API would have returned), append an already-FILLED order with
remaining quantity 0 to the completed-orders log, leave the pending store
and the timeout map unchanged, and return the synthetic order id. -/
theorem paper_trading_fills_immediately
    (s : OrderStore) (stock : String)
    (qty price now candleTime timeoutSecs : Int)
    (apiRes : Bool × OrderResult) :
    om_place_buy_order true s stock qty price now candleTime timeoutSecs apiRes =
      ({ s with completed := s.completed ++
          [{ order_id := "VT-BUY-" ++ stock ++ "-" ++ toString now,
             stock_code := stock, order_type := OrderType.buy, price := price,
             quantity := qty, timestamp := now, status := OrderStatus.filled,
             remaining_quantity := 0,
             order_3min_candle_time := some candleTime }] },
        some ("VT-BUY-" ++ stock ++ "-" ++ toString now), false) ∧
    om_place_sell_order true s stock qty price now timeoutSecs apiRes =
      ({ s with completed := s.completed ++
          [{ order_id := "VT-SELL-" ++ stock ++ "-" ++ toString now,
             stock_code := stock, order_type := OrderType.sell, price := price,
             quantity := qty, timestamp := now, status := OrderStatus.filled,
             remaining_quantity := 0 }] },
        some ("VT-SELL-" ++ stock ++ "-" ++ toString now), false) :=
  ⟨rfl, rfl⟩

lemma callApiWithRetryGo_none {α : Type} (n : Nat) (called : Bool) :
    callApiWithRetryGo ((false, none) : Bool × Option α) n called = (called, none) := by
  induction n generalizing called with
  | zero => rfl
  | succ n ih => simpa [callApiWithRetryGo] using ih called

/-- C8: a buy or sell submission whose quantity is not positive, or whose
price is negative on a non-market order (ord_dvsn other than 01), is
rejected by the validation in the order-placement call: the API-level
operation returns a failure with an empty order id and the broker
order-placement network call is never issued (first component false), and
the controller-level operation returns no order id and leaves the order
store untouched. -/
theorem submit_validation_rejects_before_broker_call
    (maxRetries : Nat) (qty price : Int) (ord_dvsn : String)
    (brokerResp : Option String) (s : OrderStore) (stock : String)
    (now candleTime timeoutSecs : Int)
    (h : qty ≤ 0 ∨ (price < 0 ∧ ord_dvsn ≠ "01")) :
    api_place_buy_order maxRetries qty price ord_dvsn brokerResp =
      (false, { success := false }) ∧
    api_place_sell_order maxRetries qty price ord_dvsn brokerResp =
      (false, { success := false }) ∧
    om_place_buy_order false s stock qty price now candleTime timeoutSecs
      (api_place_buy_order maxRetries qty price ord_dvsn brokerResp) =
      (s, none, true) ∧
    om_place_sell_order false s stock qty price now timeoutSecs
      (api_place_sell_order maxRetries qty price ord_dvsn brokerResp) =
      (s, none, true) := by
  have hv : get_order_cash qty price ord_dvsn brokerResp = (false, none) := by
    unfold get_order_cash
    rw [if_pos h]
  have hb : api_place_buy_order maxRetries qty price ord_dvsn brokerResp =
      (false, { success := false }) := by
    unfold api_place_buy_order callApiWithRetry
    rw [hv, callApiWithRetryGo_none]
  have hs : api_place_sell_order maxRetries qty price ord_dvsn brokerResp =
      (false, { success := false }) := by
    unfold api_place_sell_order callApiWithRetry
    rw [hv, callApiWithRetryGo_none]
  refine ⟨hb, hs, ?_, ?_⟩
  · rw [hb]; rfl
  · rw [hs]; rfl

theorem submit_validation_rejects_before_broker_call_witness :
    api_place_buy_order 3 0 1000 "00" (some "ODNO1") =
      (false, { success := false }) ∧
    api_place_sell_order 3 0 1000 "00" (some "ODNO1") =
      (false, { success := false }) ∧
    om_place_buy_order false ⟨[], [], []⟩ "005930" 0 1000 50 180 300
      (api_place_buy_order 3 0 1000 "00" (some "ODNO1")) =
      (⟨[], [], []⟩, none, true) ∧
    om_place_sell_order false ⟨[], [], []⟩ "005930" 0 1000 50 300
      (api_place_sell_order 3 0 1000 "00" (some "ODNO1")) =
      (⟨[], [], []⟩, none, true) :=
  submit_validation_rejects_before_broker_call 3 0 1000 "00" (some "ODNO1")
    ⟨[], [], []⟩ "005930" 50 180 300 (Or.inl (by norm_num))

/-- Helper: lookup of the order after its status field was set. -/
lemma alookup_set_status (s : OrderStore) (id : String) (st : OrderStatus) :
    alookup (set_status s id st).pending id =
      (alookup s.pending id).map fun o => { o with status := st } := by
  simp [set_status, alookup_aupdate]

/-- Helper: the set-status-then-move composition used by every forced
transition in the source. -/
lemma move_set_spec (s : OrderStore) (id : String) (st : OrderStatus)
    (o : Order) (h : alookup s.pending id = some o) :
    move_to_completed (set_status s id st) id =
      { pending := aerase (set_status s id st).pending id,
        timeouts := aerase s.timeouts id,
        completed := s.completed ++ [{ o with status := st }] } := by
  have h1 : alookup (set_status s id st).pending id =
      some { o with status := st } := by
    rw [alookup_set_status, h]; rfl
  rw [move_to_completed, h1]
  rfl

/-- Helper: _handle_timeout on an order present in the pending store
removes it from the store and appends it to the terminal log, CANCELLED
on broker cancel success and forced TIMEOUT otherwise. -/
lemma handle_timeout_spec (s : OrderStore) (id : String) (oc : CancelOutcome)
    (o : Order) (h : alookup s.pending id = some o) :
    alookup (handle_timeout s id oc).pending id = none ∧
    (handle_timeout s id oc).completed = s.completed ++
      [{ o with status := if oc = CancelOutcome.success then OrderStatus.cancelled
                          else OrderStatus.timeout }] := by
  cases oc with
  | success =>
      have h2 : handle_timeout s id CancelOutcome.success =
          move_to_completed (set_status s id OrderStatus.cancelled) id := by
        simp [handle_timeout, om_cancel_order, h]
      rw [h2, move_set_spec s id OrderStatus.cancelled o h]
      exact ⟨alookup_aerase _ _, rfl⟩
  | failure =>
      have h2 : handle_timeout s id CancelOutcome.failure =
          move_to_completed (set_status s id OrderStatus.timeout) id := by
        simp [handle_timeout, om_cancel_order, h]
      rw [h2, move_set_spec s id OrderStatus.timeout o h]
      exact ⟨alookup_aerase _ _, rfl⟩
  | error =>
      have h2 : handle_timeout s id CancelOutcome.error =
          move_to_completed (set_status s id OrderStatus.timeout) id := by
        simp [handle_timeout, om_cancel_order, h]
      rw [h2, move_set_spec s id OrderStatus.timeout o h]
      exact ⟨alookup_aerase _ _, rfl⟩

/-- C5: a pending order whose wall-clock deadline has passed ends the
monitoring pass outside the pending store in a terminal state: the
_handle_timeout step removes it and logs it CANCELLED when the broker
cancel succeeds and forced TIMEOUT when the cancel fails or raises; and
the full per-order monitoring body, whenever the deadline recorded for
the order has passed, leaves the order out of the pending store no matter
what the broker status queries and the cancel call return. -/
theorem timed_out_order_leaves_pending_store
    (s : OrderStore) (id : String) (oc : CancelOutcome) (o : Order)
    (now tt : Int) (pendingRow : Option PendingRow) (fills : List FillRecord)
    (h : alookup s.pending id = some o) :
    alookup (handle_timeout s id oc).pending id = none ∧
    (handle_timeout s id oc).completed = s.completed ++
      [{ o with status := if oc = CancelOutcome.success then OrderStatus.cancelled
                          else OrderStatus.timeout }] ∧
    (alookup s.timeouts id = some tt → tt < now →
      alookup (monitor_pending_order s id now pendingRow fills oc).pending id =
        none) := by
  obtain ⟨ha, hb⟩ := handle_timeout_spec s id oc o h
  refine ⟨ha, hb, ?_⟩
  intro ht hn
  have hgt : now > tt := hn
  cases hcr : check_order_status o (get_order_status id pendingRow fills) now with
  | noData =>
      have hs1 : apply_check s id CheckResult.noData = s := rfl
      simp only [monitor_pending_order, h, hcr, hs1, ht, hgt, if_pos]
      exact ha
  | keep o1 =>
      have hs1 : alookup (apply_check s id (CheckResult.keep o1)).pending id =
          some o1 := by
        simp [apply_check, alookup_aupdate, h]
      simp only [monitor_pending_order, h, hcr, hs1, ht]
      rw [if_pos hgt]
      exact (handle_timeout_spec _ id oc o1 hs1).1
  | complete o1 =>
      have hup : alookup (aupdate s.pending id fun _ => o1) id = some o1 := by
        simp [alookup_aupdate, h]
      have hs1 : alookup (apply_check s id (CheckResult.complete o1)).pending id =
          none := by
        simp [apply_check, move_to_completed, hup, alookup_aerase]
      simp only [monitor_pending_order, h, hcr, hs1]

/-- Concrete order used by the C5 witness. -/
def t5Order : Order :=
  { order_id := "T5", stock_code := "005930", order_type := OrderType.buy,
    price := 100, quantity := 10, timestamp := 0,
    status := OrderStatus.pending, remaining_quantity := 10 }

/-- Concrete store used by the C5 witness: one pending order with its
wall-clock deadline at 300 seconds. -/
def t5Store : OrderStore := ⟨[("T5", t5Order)], [("T5", 300)], []⟩

theorem timed_out_order_leaves_pending_store_witness :
    alookup (handle_timeout t5Store "T5" CancelOutcome.failure).pending "T5" =
      none ∧
    (handle_timeout t5Store "T5" CancelOutcome.failure).completed =
      [{ t5Order with status := OrderStatus.timeout }] ∧
    alookup (monitor_pending_order t5Store "T5" 301 none []
        CancelOutcome.failure).pending "T5" = none := by
  have h := timed_out_order_leaves_pending_store t5Store "T5"
    CancelOutcome.failure t5Order 301 300 none [] (by rfl)
  exact ⟨h.1, by simpa [t5Store] using h.2.1, h.2.2 (by rfl) (by norm_num)⟩

/-- Helper: the loop issues at most one network attempt per remaining
iteration, plus one for a terminal post-re-authentication replay. -/
lemma fetchGo_attempts_le (maxRetries : Nat) (base : ℚ)
    (script : Nat → ApiResponse) :
    ∀ (fuel attempt rl attempts : Nat) (sleeps : List ℚ),
      (fetchGo maxRetries base script fuel attempt rl attempts sleeps).attempts ≤
        attempts + fuel + 1 := by
  intro fuel
  induction fuel with
  | zero => intro attempt rl attempts sleeps; simp [fetchGo]
  | succ fuel ih =>
      intro attempt rl attempts sleeps
      cases hsc : script attempts with
      | ok => simp [fetchGo, hsc]
      | rateLimit =>
          by_cases hlt : attempt < maxRetries
          · simp only [fetchGo, hsc, if_pos hlt]
            exact le_trans (ih _ _ _ _) (by omega)
          · simp [fetchGo, hsc, hlt]
      | tokenExpired ro =>
          cases ro with
          | false => simp [fetchGo, hsc]
          | true =>
              cases hsc2 : script (attempts + 1) with
              | tokenExpired ro2 => simp [fetchGo, hsc, hsc2]
              | http500TokenExpired ro2 => simp [fetchGo, hsc, hsc2]
              | _ => simp [fetchGo, hsc, hsc2]
      | bizError => simp [fetchGo, hsc]
      | http500TokenExpired ro =>
          cases ro with
          | false => simp [fetchGo, hsc]
          | true =>
              simp only [fetchGo, hsc]
              exact le_trans (ih _ _ _ _) (by omega)
      | http500RateLimit =>
          by_cases hlt : attempt < maxRetries
          · simp only [fetchGo, hsc, if_pos hlt]
            exact le_trans (ih _ _ _ _) (by omega)
          · simp [fetchGo, hsc, hlt]
      | httpError => simp [fetchGo, hsc]
      | transportExn =>
          by_cases hlt : attempt < maxRetries
          · simp only [fetchGo, hsc, if_pos hlt]
            exact le_trans (ih _ _ _ _) (by omega)
          · simp [fetchGo, hsc, hlt]

/-- Helper: without any application-level token-expired response the
budget is one attempt per iteration. -/
lemma fetchGo_attempts_le_no_reauth (maxRetries : Nat) (base : ℚ)
    (script : Nat → ApiResponse)
    (hscript : ∀ i b, script i ≠ ApiResponse.tokenExpired b) :
    ∀ (fuel attempt rl attempts : Nat) (sleeps : List ℚ),
      (fetchGo maxRetries base script fuel attempt rl attempts sleeps).attempts ≤
        attempts + fuel := by
  intro fuel
  induction fuel with
  | zero => intro attempt rl attempts sleeps; simp [fetchGo]
  | succ fuel ih =>
      intro attempt rl attempts sleeps
      cases hsc : script attempts with
      | ok => simp [fetchGo, hsc]
      | rateLimit =>
          by_cases hlt : attempt < maxRetries
          · simp only [fetchGo, hsc, if_pos hlt]
            exact le_trans (ih _ _ _ _) (by omega)
          · simp [fetchGo, hsc, hlt]
      | tokenExpired ro => exact absurd hsc (hscript attempts ro)
      | bizError => simp [fetchGo, hsc]
      | http500TokenExpired ro =>
          cases ro with
          | false => simp [fetchGo, hsc]
          | true =>
              simp only [fetchGo, hsc]
              exact le_trans (ih _ _ _ _) (by omega)
      | http500RateLimit =>
          by_cases hlt : attempt < maxRetries
          · simp only [fetchGo, hsc, if_pos hlt]
            exact le_trans (ih _ _ _ _) (by omega)
          · simp [fetchGo, hsc, hlt]
      | httpError => simp [fetchGo, hsc]
      | transportExn =>
          by_cases hlt : attempt < maxRetries
          · simp only [fetchGo, hsc, if_pos hlt]
            exact le_trans (ih _ _ _ _) (by omega)
          · simp [fetchGo, hsc, hlt]

/-- Helper: under an all-rate-limit script the loop runs to exhaustion,
one attempt per iteration with a backoff sleep between consecutive
attempts, surfacing the rate-limit failure. -/
lemma fetchGo_rateLimit (maxRetries : Nat) (base : ℚ) :
    ∀ (fuel attempt rl attempts : Nat) (sleeps : List ℚ),
      attempt + fuel = maxRetries + 1 → 1 ≤ fuel →
      (fetchGo maxRetries base (fun _ => ApiResponse.rateLimit) fuel attempt rl
          attempts sleeps).attempts = attempts + fuel ∧
      (fetchGo maxRetries base (fun _ => ApiResponse.rateLimit) fuel attempt rl
          attempts sleeps).result = FetchOutcome.rateLimitFail ∧
      (fetchGo maxRetries base (fun _ => ApiResponse.rateLimit) fuel attempt rl
          attempts sleeps).sleeps.length = sleeps.length + (fuel - 1) := by
  intro fuel
  induction fuel with
  | zero => intro attempt rl attempts sleeps hsum hf; exact absurd hf (by omega)
  | succ fuel ih =>
      intro attempt rl attempts sleeps hsum hf
      by_cases hlt : attempt < maxRetries
      · have hf1 : 1 ≤ fuel := by omega
        have hsum1 : (attempt + 1) + fuel = maxRetries + 1 := by omega
        have h3 := ih (attempt + 1) (rl + 1) (attempts + 1)
          (sleeps ++ [(if rl + 1 > 10 then base * 3 / 2 else base) * 2 ^ attempt])
          hsum1 hf1
        simp only [fetchGo, if_pos hlt]
        refine ⟨by rw [h3.1]; omega, h3.2.1, ?_⟩
        rw [h3.2.2]
        simp [List.length_append]
        omega
      · have hfu : fuel = 0 := by omega
        subst hfu
        simp [fetchGo, hlt]

/-- C6: a logical gateway call issues at most max_retries + 2 network
attempts, and at most max_retries + 1 whenever no application-level
token-expired response occurs (the post-re-authentication replay being
the single possible extra attempt, after which the call always returns);
and under a script answering every attempt with the application-level
rate-limit error, exactly max_retries + 1 attempts are issued with a
backoff sleep between each consecutive pair (max_retries sleeps), after
which the rate-limit failure is surfaced to the caller. -/
theorem gateway_retry_budget :
    (∀ (maxRetries : Nat) (base : ℚ) (rl0 : Nat) (script : Nat → ApiResponse),
      (url_fetch maxRetries base rl0 script).attempts ≤ maxRetries + 2) ∧
    (∀ (maxRetries : Nat) (base : ℚ) (rl0 : Nat) (script : Nat → ApiResponse),
      (∀ i b, script i ≠ ApiResponse.tokenExpired b) →
      (url_fetch maxRetries base rl0 script).attempts ≤ maxRetries + 1) ∧
    (∀ (maxRetries : Nat) (base : ℚ) (rl0 : Nat),
      (url_fetch maxRetries base rl0 (fun _ => ApiResponse.rateLimit)).attempts =
        maxRetries + 1 ∧
      (url_fetch maxRetries base rl0 (fun _ => ApiResponse.rateLimit)).result =
        FetchOutcome.rateLimitFail ∧
      (url_fetch maxRetries base rl0
          (fun _ => ApiResponse.rateLimit)).sleeps.length = maxRetries) := by
  refine ⟨?_, ?_, ?_⟩
  · intro maxRetries base rl0 script
    exact le_trans (fetchGo_attempts_le maxRetries base script (maxRetries + 1)
      0 rl0 0 []) (by omega)
  · intro maxRetries base rl0 script hscript
    exact le_trans (fetchGo_attempts_le_no_reauth maxRetries base script hscript
      (maxRetries + 1) 0 rl0 0 []) (by omega)
  · intro maxRetries base rl0
    have h := fetchGo_rateLimit maxRetries base (maxRetries + 1) 0 rl0 0 []
      (by omega) (by omega)
    exact ⟨by rw [url_fetch, h.1]; omega, by rw [url_fetch, h.2.1],
      by rw [url_fetch, h.2.2]; simp⟩

theorem gateway_retry_budget_witness :
    (url_fetch 3 (3 / 2 : ℚ) 0 (fun _ => ApiResponse.rateLimit)).attempts = 4 ∧
    (url_fetch 3 (3 / 2 : ℚ) 0 (fun _ => ApiResponse.rateLimit)).result =
      FetchOutcome.rateLimitFail ∧
    (url_fetch 3 (3 / 2 : ℚ) 0 (fun _ => ApiResponse.rateLimit)).sleeps.length = 3 ∧
    (url_fetch 2 (1 : ℚ) 5 (fun _ => ApiResponse.ok)).attempts ≤ 3 := by
  have h := gateway_retry_budget.2.2 3 (3 / 2 : ℚ) 0
  have h2 := gateway_retry_budget.2.1 2 (1 : ℚ) 5 (fun _ => ApiResponse.ok)
    (fun i b h => by cases h)
  exact ⟨h.1, h.2.1, h.2.2, h2⟩

/-- Helper: one serialized acquire step spaces the new grant at least
min_interval after the previously recorded grant. -/
lemma acquire_step_spacing (minInterval : ℚ) (last : Option ℚ) (t1 t2 p : ℚ)
    (hl : last = some p) (hmono : p ≤ t1)
    (hsleep : t1 + waitTime minInterval last t1 ≤ t2) :
    p + minInterval ≤ t2 := by
  subst hl
  simp only [waitTime] at hsleep
  by_cases hw : t1 - p < minInterval
  · rw [if_pos hw] at hsleep
    linarith
  · rw [if_neg hw] at hsleep
    push_neg at hw
    linarith

/-- Helper: the chain of recorded grant timestamps produced by a valid
serialized call sequence is spaced by at least min_interval, including
with respect to the initially recorded timestamp. -/
lemma grantTimes_chain (minInterval : ℚ) :
    ∀ (calls : List (ℚ × ℚ)) (s : LimiterState),
      validCalls minInterval s.lastCall calls →
      List.Chain' (fun a b => a + minInterval ≤ b)
        (s.lastCall.toList ++ grantTimes minInterval s calls) := by
  intro calls
  induction calls with
  | nil => intro s _; cases s.lastCall <;> simp [grantTimes]
  | cons c rest ih =>
      intro s h
      obtain ⟨h1, h2, h3⟩ := h
      have hlast : (wait_for_api_limit minInterval s c.1 c.2).lastCall =
          some c.2 := rfl
      have ihr := ih (wait_for_api_limit minInterval s c.1 c.2)
        (by rw [hlast]; exact h3)
      rw [hlast] at ihr
      cases hl : s.lastCall with
      | none =>
          simpa [grantTimes, hl] using ihr
      | some p =>
          have hp : p + minInterval ≤ c.2 :=
            acquire_step_spacing minInterval s.lastCall c.1 c.2 p hl
              (h1 p hl) h2
          simp only [grantTimes, hl, Option.toList_some, List.singleton_append,
            List.chain'_cons]
          exact ⟨hp, by simpa using ihr⟩

/-- C7: the serialized acquire operation always records the post-sleep
clock read as the new grant time (it never fails, only delays), and for
every valid serialized sequence of acquire calls - the clock monotone
across the critical sections and each sleep lasting at least the
computed wait - every consecutive pair of recorded grant timestamps,
including the initially recorded one, differs by at least min_interval. -/
theorem rate_limiter_min_interval :
    (∀ (minInterval : ℚ) (s : LimiterState) (t1 t2 : ℚ),
      (wait_for_api_limit minInterval s t1 t2).lastCall = some t2 ∧
      (wait_for_api_limit minInterval s t1 t2).totalCalls = s.totalCalls + 1) ∧
    (∀ (minInterval : ℚ) (s : LimiterState) (calls : List (ℚ × ℚ)),
      validCalls minInterval s.lastCall calls →
      List.Chain' (fun a b => a + minInterval ≤ b)
        (s.lastCall.toList ++ grantTimes minInterval s calls)) :=
  ⟨fun _ _ _ _ => ⟨rfl, rfl⟩, fun minInterval s calls h =>
    grantTimes_chain minInterval calls s h⟩

theorem rate_limiter_min_interval_witness :
    (wait_for_api_limit 1 ⟨none, 0, 0⟩ 5 5).lastCall = some 5 ∧
    List.Chain' (fun a b => a + (1 : ℚ) ≤ b)
      ((Option.toList (some (0 : ℚ))) ++
        grantTimes 1 ⟨some (0 : ℚ), 0, 0⟩ [(0, 1), (1, 2), (4, 4)]) :=
  ⟨(rate_limiter_min_interval.1 1 ⟨none, 0, 0⟩ 5 5).1,
   rate_limiter_min_interval.2 1 ⟨some (0 : ℚ), 0, 0⟩ [(0, 1), (1, 2), (4, 4)]
     (by
       refine ⟨?_, ?_, ?_, ?_, ?_, ?_, trivial⟩ <;>
         simp [waitTime] <;> norm_num)⟩

end RoboTrader
